import Mathlib

/-!
Shallow embedding of the order-lifecycle / payment-reconciliation core of the
e-commerce backend (Django app `suspense`), faithful to:
  - payments/models.py        (Order, OrderItem, Payment and Order.save)
  - payments/views.py         (create_order, verify_payment, check_payment_status,
                               razorpay_webhook, cancel_order, handle_successful_payment,
                               decrease_order_stock)
  - payments/shiprocket_service.py (ShiprocketService.calculate_shipping_charges)
  - payments/webhook_handler.py    (handle_shipment_status, handle_shipment_delivered)

Money values (Python `Decimal` / JSON floats) are modelled as rationals (ℚ);
database tables are lists of records; each Django `Model.save()` call is an
explicit state update; exceptions are modelled as error results that abort the
remaining statements of the Python function exactly where the exception would
propagate.
-/

namespace Suspense

/-- Order.ORDER_STATUS in payments/models.py. -/
inductive OrderStatus
  | created
  | attempted
  | paid
  | failed
  | cancelled
deriving DecidableEq

/-- Payment.PAYMENT_STATUS in payments/models.py. -/
inductive PaymentStatus
  | created
  | authorized
  | captured
  | refunded
  | failed
deriving DecidableEq

/-- The Order model (payments/models.py lines 5-69).  Only the fields the
lifecycle logic reads or writes are carried.  Note the model has **no**
`idempotency_key` field.  `stock_debited` is ghost state modelled from the
spec: the Stock Ledger knows whether this order's stock was actually debited
(the spec's `release` is applied only to stock previously reserved); the
Django code keeps no such flag.  `tracking_log` models the
`tracking_data['tracking_data']` append-only list. -/
structure Order where
  id : Nat
  userId : Nat
  razorpay_order_id : String
  amount : ℚ
  currency : String
  status : OrderStatus
  subtotal : ℚ
  shipment_charge : ℚ
  total_amount : ℚ
  free_shipping : Bool
  shipping_status : String
  awb_number : Option String
  delivered_at : Option Nat
  tracking_log : List (String × String)
  stock_debited : Bool
deriving DecidableEq

/-- OrderItem (payments/models.py lines 70-77). -/
structure OrderItem where
  orderId : Nat
  productId : Nat
  quantity : Nat
  price : ℚ
deriving DecidableEq

/-- Payment (payments/models.py lines 79-99); one row per captured/failed payment. -/
structure Payment where
  orderId : Nat
  razorpay_payment_id : String
  razorpay_signature : String
  status : PaymentStatus
  amount : ℚ
  currency : String
deriving DecidableEq

/-- Product (products/models.py), as read by the payments views: price,
optional discounted price, available stock. -/
structure Product where
  id : Nat
  name : String
  price : ℚ
  discounted_price : Option ℚ
  stock : Nat
deriving DecidableEq

/-- The persistent state the lifecycle code mutates.  `carts` lists the user
ids owning a Cart row; `enqueued` records order ids for which asynchronous
Shiprocket order creation was started; `shiprocketConfigured` models
`settings.SHIPROCKET_EMAIL` being set. -/
structure DB where
  orders : List Order
  items : List OrderItem
  payments : List Payment
  products : List Product
  carts : List Nat
  enqueued : List Nat
  shiprocketConfigured : Bool
deriving DecidableEq

/-- Embeds `Order.save` (payments/models.py lines 56-66): on **every** persist the
shipment charge is overwritten by the flat rule (free above the threshold,
otherwise a flat 70) and `total_amount` is recomputed from it; the `amount`
field is not touched. -/
def orderSave (o : Order) : Order :=
  if 3000 ≤ o.subtotal then
    { o with shipment_charge := 0, free_shipping := true,
             total_amount := o.subtotal + 0 }
  else
    { o with shipment_charge := 70, free_shipping := false,
             total_amount := o.subtotal + 70 }

/-- Replace the stored row of order `o` (matched by id) after a `save`. -/
def updateOrder (db : DB) (o : Order) : DB :=
  { db with orders := db.orders.map (fun x => if x.id = o.id then o else x) }

def findOrderByRid (db : DB) (rid : String) : Option Order :=
  db.orders.find? (fun o => o.razorpay_order_id = rid)

def findOrderByRidUser (db : DB) (rid : String) (uid : Nat) : Option Order :=
  db.orders.find? (fun o => o.razorpay_order_id = rid ∧ o.userId = uid)

def findOrderByIdUser (db : DB) (oid uid : Nat) : Option Order :=
  db.orders.find? (fun o => o.id = oid ∧ o.userId = uid)

def findOrderById (db : DB) (oid : Nat) : Option Order :=
  db.orders.find? (fun o => o.id = oid)

def findPaymentByOrder (db : DB) (oid : Nat) : Option Payment :=
  db.payments.find? (fun p => p.orderId = oid)

def findProduct (db : DB) (pid : Nat) : Option Product :=
  db.products.find? (fun p => p.id = pid)

def updateProductStock (db : DB) (pid : Nat) (f : Nat → Nat) : DB :=
  { db with products :=
      db.products.map (fun p => if p.id = pid then { p with stock := f p.stock } else p) }

def itemsOf (db : DB) (oid : Nat) : List OrderItem :=
  db.items.filter (fun it => it.orderId = oid)

/-- Effective unit price at checkout (views.py line 162): the discounted price
when present and strictly below the list price, else the list price. -/
def effectivePrice (p : Product) : ℚ :=
  match p.discounted_price with
  | some d => if d < p.price then d else p.price
  | none => p.price

/-- HTTP-level outcome of the payment endpoints. -/
inductive Resp
  | success
  | badRequest
  | notFound
  | serverError
  | pending
deriving DecidableEq

/-- One step of `decrease_order_stock` (views.py lines 93-118): walk the
order's items in sequence; an item whose product is missing or whose quantity
exceeds current stock raises, aborting the remaining iterations but keeping
the decrements already persisted. -/
def decreaseStockList : List OrderItem → DB → DB × Bool
  | [], db => (db, true)
  | it :: rest, db =>
    match findProduct db it.productId with
    | none => (db, false)
    | some p =>
      if p.stock < it.quantity then (db, false)
      else decreaseStockList rest (updateProductStock db it.productId (fun s => s - it.quantity))

/-- Embeds `decrease_order_stock(order)` (views.py lines 93-118). The Bool is false
when the ValueError propagates to the caller. -/
def decrease_order_stock (db : DB) (oid : Nat) : DB × Bool :=
  decreaseStockList (itemsOf db oid) db

/-- Ghost update: record in the Stock Ledger model state that this order's
stock has been debited (spec §4.1; the Django code keeps no such flag). -/
def markStockDebited (db : DB) (oid : Nat) : DB :=
  { db with orders := db.orders.map (fun x =>
      if x.id = oid then { x with stock_debited := true } else x) }

/-- Embeds `Payment.objects.get_or_create(order=order, defaults=...)` followed by the
update branch (views.py lines 40-55): create a captured Payment row if none
exists for the order, else overwrite payment id, signature and status. -/
def upsertPayment (db : DB) (o : Order) (pid sig : String) : DB :=
  match findPaymentByOrder db o.id with
  | none =>
    { db with payments := db.payments ++
        [{ orderId := o.id, razorpay_payment_id := pid, razorpay_signature := sig,
           status := .captured, amount := o.amount, currency := o.currency }] }
  | some _ =>
    { db with payments := db.payments.map (fun p =>
        if p.orderId = o.id then
          { p with razorpay_payment_id := pid, razorpay_signature := sig,
                   status := .captured }
        else p) }

/-- Embeds `Cart.objects.filter(user=order.user).delete()` (views.py line 63). -/
def clearCart (db : DB) (uid : Nat) : DB :=
  { db with carts := db.carts.filter (fun u => u ≠ uid) }

/-- Start of the asynchronous Shiprocket order-creation thread (views.py
lines 69-78): recorded only when Shiprocket credentials are configured. -/
def enqueueShipment (db : DB) (oid : Nat) : DB :=
  if db.shiprocketConfigured then { db with enqueued := db.enqueued ++ [oid] } else db

/-- Embeds `handle_successful_payment(order, payment_data)` (views.py lines 30-91):
mark the order paid (a persist, so `Order.save` runs), upsert the Payment
row, debit stock (a failure there propagates, skipping cart clearing and the
shipment enqueue), clear the user's cart, start async shipment creation.
Returns the mutated state and whether the function returned normally. -/
def handle_successful_payment (db : DB) (o : Order) (pid sig : String) : DB × Bool :=
  let o1 := orderSave { o with status := .paid }
  let db1 := updateOrder db o1
  let db2 := upsertPayment db1 o1 pid sig
  match decrease_order_stock db2 o.id with
  | (db3, false) => (db3, false)
  | (db3, true) =>
    let db4 := clearCart (markStockDebited db3 o.id) o.userId
    (enqueueShipment db4 o.id, true)

/-- Embeds `verify_payment` (views.py lines 411-465) after serializer validation:
signature check first (mismatch → 400, order untouched); an already-paid
order answers success from the existing Payment row; otherwise run the paid
transition (an exception there is caught and answered 500). -/
def verify_payment (db : DB) (uid : Nat) (rid pid sig : String) (sigValid : Bool) :
    DB × Resp :=
  if sigValid then
    match findOrderByRidUser db rid uid with
    | none => (db, .notFound)
    | some o =>
      if o.status = .paid then
        match findPaymentByOrder db o.id with
        | some _ => (db, .success)
        | none => (db, .serverError)
      else
        match handle_successful_payment db o pid sig with
        | (db1, true) => (db1, .success)
        | (db1, false) => (db1, .serverError)
  else (db, .badRequest)

/-- Embeds `check_payment_status` (views.py lines 467-523): an already-paid order
answers success from the existing Payment row; otherwise poll the gateway
(`gatewayCaptured` is the captured payment id the gateway reports, if any)
and run the paid transition; with no captured payment, report the current
status. -/
def check_payment_status (db : DB) (uid : Nat) (rid : String)
    (gatewayCaptured : Option String) : DB × Resp :=
  match findOrderByRidUser db rid uid with
  | none => (db, .notFound)
  | some o =>
    if o.status = .paid then
      match findPaymentByOrder db o.id with
      | some _ => (db, .success)
      | none => (db, .serverError)
    else
      match gatewayCaptured with
      | some pid =>
        match handle_successful_payment db o pid "" with
        | (db1, true) => (db1, .success)
        | (db1, false) => (db1, .pending)
      | none => (db, .pending)

/-- The `payment.captured` branch of `razorpay_webhook` (views.py lines
558-583): run the paid transition unless the order is already paid, in which
case answer success without touching anything. -/
def webhook_captured (db : DB) (rid pid : String) : DB × Resp :=
  match findOrderByRid db rid with
  | none => (db, .notFound)
  | some o =>
    if o.status = .paid then (db, .success)
    else
      match handle_successful_payment db o pid "" with
      | (db1, true) => (db1, .success)
      | (db1, false) => (db1, .badRequest)

/-- Credit each item's quantity back to its product's stock, in sequence. -/
def creditStockList : List OrderItem → DB → DB
  | [], db => db
  | it :: rest, db =>
    creditStockList rest (updateProductStock db it.productId (fun s => s + it.quantity))

/-- Modelled from the spec: `restore_order_stock` is called at views.py lines
602 and 699 but defined nowhere under src/.  Spec §4.1 (`release` credits
back exactly what a prior `reserve` debited), §3 ("restoring any stock
already tentatively reserved") and §8 ("restores exactly the stock
quantities of its OrderItems, and is a no-op if stock was never reserved"):
credit every OrderItem quantity back when the order's stock was debited,
and change nothing otherwise. -/
def restore_order_stock (db : DB) (oid : Nat) : DB :=
  match findOrderById db oid with
  | none => db
  | some o =>
    if o.stock_debited then
      let db1 := creditStockList (itemsOf db oid) db
      { db1 with orders := db1.orders.map (fun x =>
          if x.id = oid then { x with stock_debited := false } else x) }
    else db

/-- The `payment.failed` branch of `razorpay_webhook` (views.py lines
585-621): any order not already in status failed is overwritten to failed
and persisted; the stock-restore branch tests `order.status == 'created'`
**after** the assignment to failed, so it never runs; then
`Payment.objects.create(order=order, ...)` inserts a failed Payment row.
Payment.order is a `OneToOneField`, unique at the database level, so when a
Payment row for this order already exists the insert raises IntegrityError,
which the handler's `except Exception` at line 654 turns into an HTTP 400 —
with the failed status already persisted and no row inserted. -/
def webhook_failed (db : DB) (rid pid : String) : DB × Resp :=
  match findOrderByRid db rid with
  | none => (db, .notFound)
  | some o =>
    if o.status = .failed then (db, .success)
    else
      let o1 := orderSave { o with status := .failed }
      let db1 := updateOrder db o1
      let db2 := if o1.status = .created then restore_order_stock db1 o.id else db1
      match findPaymentByOrder db2 o.id with
      | some _ => (db2, .badRequest)
      | none =>
        ({ db2 with payments := db2.payments ++
            [{ orderId := o.id, razorpay_payment_id := pid, razorpay_signature := "",
               status := .failed, amount := o.amount, currency := o.currency }] },
         .success)

/-- Embeds `cancel_order` (views.py lines 680-709): a paid order cannot be
cancelled; otherwise mark cancelled, persist, and restore stock (the
restore function itself being the spec-modelled `restore_order_stock`). -/
def cancel_order (db : DB) (uid oid : Nat) : DB × Resp :=
  match findOrderByIdUser db oid uid with
  | none => (db, .notFound)
  | some o =>
    if o.status = .paid then (db, .badRequest)
    else
      let o1 := orderSave { o with status := .cancelled }
      let db1 := updateOrder db o1
      (restore_order_stock db1 oid, .success)

/-- Round a Decimal to an integer with `ROUND_HALF_UP` (ties away from
zero), as in `(total_amount * 100).quantize(Decimal(1), ROUND_HALF_UP)`. -/
def roundHalfUp (x : ℚ) : ℤ :=
  if 0 ≤ x then ⌊x + 1 / 2⌋ else -⌊-x + 1 / 2⌋

/-- views.py line 255: the integer paise amount handed to the gateway. -/
def amount_in_paise (total : ℚ) : ℤ :=
  roundHalfUp (total * 100)

/-- Successful shipping quote as consumed by `create_order` (the
`cheapest_rate` / `cheapest_courier` fields of the helper's mapping). -/
structure Quote where
  rate : ℚ
  courier : String
deriving DecidableEq

/-- Outcome of `create_order`.  `fieldError` and `gatewayError` surface as
HTTP 500, `badRequest` as 400, `created` carries the paise amount opened
with the gateway. -/
inductive CreateResp
  | fieldError
  | badRequest
  | gatewayError
  | created (paise : ℤ)
deriving DecidableEq

/-- The stock-validation loop of `create_order` (views.py lines 143-185):
`none` when some product id does not exist (immediate 400); otherwise the
priced items (product id, quantity, effective price), the subtotal, and
whether any item had insufficient stock (such items are skipped and
collected as errors). -/
def checkItems (db : DB) : List (Nat × Nat) → Option (List (Nat × Nat × ℚ) × ℚ × Bool)
  | [] => some ([], 0, false)
  | (pid, qty) :: rest =>
    match findProduct db pid with
    | none => none
    | some p =>
      if p.stock < qty then
        match checkItems db rest with
        | none => none
        | some (l, s, _) => some (l, s, true)
      else
        match checkItems db rest with
        | none => none
        | some (l, s, e) =>
          some ((pid, qty, effectivePrice p) :: l, s + effectivePrice p * qty, e)

/-- Embeds `create_order` (views.py lines 120-335).  A request carrying an
`Idempotency-Key` header reaches `Order.objects.filter(idempotency_key=...)`
at line 124; the Order model (models.py) has no `idempotency_key` field, so
Django raises `FieldError` outside the handler's try block — a 500 with no
side effects.  Otherwise: missing pincode → 400; stock validation; shipping
quote (`quote = none` models a failed quote) → 400 on failure; paise
conversion with the minimum-amount gate; gateway order creation
(`gatewayOrderId = none` models a gateway failure → 500, nothing persisted);
on success the Order row is created — `Order.objects.create` runs
`Order.save`, hence `orderSave` — followed by its OrderItem rows. -/
def create_order (db : DB) (uid : Nat) (idemKey : Option String)
    (pincode : Option String) (reqItems : List (Nat × Nat))
    (quote : Option Quote) (gatewayOrderId : Option String) : DB × CreateResp :=
  if idemKey.isSome then (db, .fieldError)
  else
    match pincode with
    | none => (db, .badRequest)
    | some _ =>
      match checkItems db reqItems with
      | none => (db, .badRequest)
      | some (_, _, true) => (db, .badRequest)
      | some (priced, subtotal, false) =>
        match quote with
        | none => (db, .badRequest)
        | some q =>
          let total := subtotal + q.rate
          let paise := amount_in_paise total
          if paise < 100 then (db, .badRequest)
          else
            match gatewayOrderId with
            | none => (db, .gatewayError)
            | some rid =>
              let oid := db.orders.length
              let o := orderSave {
                id := oid, userId := uid, razorpay_order_id := rid,
                amount := total, currency := "INR", status := .created,
                subtotal := subtotal, shipment_charge := q.rate,
                total_amount := 0, free_shipping := false,
                shipping_status := "pending", awb_number := none,
                delivered_at := none, tracking_log := [], stock_debited := false }
              let newItems : List OrderItem := priced.map (fun t =>
                { orderId := oid, productId := t.1, quantity := t.2.1, price := t.2.2 })
              let db1 := { db with orders := db.orders ++ [o] }
              let db2 := { db1 with items := db1.items ++ newItems }
              (db2, .created paise)

/-- A candidate courier as returned by the aggregator's serviceability call
(shiprocket_service.py).  `rate = none` models an absent or unparseable
`rate` field (in `compute_rate`, `float(rate)` raising falls through to the
freight fallback); `courier_company_id = none` models an absent id. -/
structure Courier where
  courier_company_id : Option Nat
  rate : Option ℚ
  freight_charge : ℚ
  other_charges : ℚ
  name : String
deriving DecidableEq

/-- Embeds `compute_rate(c)` (shiprocket_service.py lines 146-156 and 167-177):
the declared rate when it parses and is strictly positive, else
freight_charge + other_charges. -/
def compute_rate (c : Courier) : ℚ :=
  match c.rate with
  | some r => if 0 < r then r else c.freight_charge + c.other_charges
  | none => c.freight_charge + c.other_charges

/-- Python truthiness of an optional integer id (0 and None are falsy). -/
def truthyId : Option Nat → Bool
  | none => false
  | some n => decide (n ≠ 0)

/-- Embeds `final_recommended_id = shiprocket_recommended_courier_id or
recommended_courier_company_id` (shiprocket_service.py line 128), with
Python `or` semantics. -/
def final_recommended_id (sr rc : Option Nat) : Option Nat :=
  if truthyId sr then sr else rc

/-- The recommended-courier scan (shiprocket_service.py lines 134-140): the
first candidate whose `courier_company_id` equals the truthy recommended id. -/
def find_recommended (couriers : List Courier) (fid : Option Nat) : Option Courier :=
  if truthyId fid then couriers.find? (fun c => decide (c.courier_company_id = fid))
  else none

/-- Python `min(valid, key=compute_rate)`: the first element attaining the
minimal key. -/
def pyminBy (x : Courier) (xs : List Courier) : Courier :=
  xs.foldl (fun best c => if compute_rate c < compute_rate best then c else best) x

/-- Failure modes of the courier-selection step. -/
inductive ShipError
  | noCouriers
  | noValidRates
deriving DecidableEq

/-- The courier-selection core of
`ShiprocketService.calculate_shipping_charges` (shiprocket_service.py lines
114-203), given the parsed candidate list and the two recommended-id fields
of the response: an empty candidate list fails; a candidate matching the
truthy recommended id is selected with **no** check on its rate; otherwise
the cheapest candidate (by `compute_rate`) among those with positive
computed rate, failing when there is none. -/
def calculate_shipping_charges (couriers : List Courier) (sr rc : Option Nat) :
    Except ShipError (ℚ × Courier) :=
  if couriers.isEmpty then .error .noCouriers
  else
    match find_recommended couriers (final_recommended_id sr rc) with
    | some c => .ok (compute_rate c, c)
    | none =>
      match couriers.filter (fun c => decide (0 < compute_rate c)) with
      | [] => .error .noValidRates
      | v :: vs =>
        let best := pyminBy v vs
        .ok (compute_rate best, best)

/-- Python truthiness of an optional string (None and the empty string are
falsy). -/
def truthyStr : Option String → Bool
  | none => false
  | some s => decide (s ≠ "")

/-- The known-status keys of `status_map` in `handle_shipment_status`
(webhook_handler.py lines 185-194). -/
def knownStatuses : List String :=
  ["processing", "ready_to_ship", "shipped", "in_transit", "out_for_delivery",
   "delivered", "rto", "cancelled"]

/-- Embeds `status_map.get(status, status)` (webhook_handler.py line 196):
map the aggregator's status string to the internal enum value, passing an
unrecognized string through unchanged (no lower-casing, no exception). -/
def statusMapLookup (s : String) : String :=
  if s = "processing" then "processing"
  else if s = "ready_to_ship" then "processing"
  else if s = "shipped" then "shipped"
  else if s = "in_transit" then "in_transit"
  else if s = "out_for_delivery" then "out_for_delivery"
  else if s = "delivered" then "delivered"
  else if s = "rto" then "returned"
  else if s = "cancelled" then "cancelled"
  else s

/-- Embeds `handle_shipment_status(webhook_data)` (webhook_handler.py lines
149-234), acting on the resolved order: set the AWB number if absent, store
the mapped status whenever truthy and different from the current one, append
the raw status to the tracking log (capped to the most recent 50), persist
(which runs `Order.save`). -/
def handle_shipment_status (o : Order) (st : String) (awb : Option String) : Order :=
  let mapped := statusMapLookup st
  let o1 := if truthyStr awb ∧ ¬ truthyStr o.awb_number then { o with awb_number := awb } else o
  let o2 := if mapped ≠ "" ∧ o1.shipping_status ≠ mapped then
      { o1 with shipping_status := mapped } else o1
  let log := o2.tracking_log ++ [("shipment_status", st)]
  let log2 := if 50 < log.length then log.drop (log.length - 50) else log
  orderSave { o2 with tracking_log := log2 }

/-- Embeds `handle_shipment_delivered(webhook_data)` (webhook_handler.py
lines 237-321), acting on the resolved order: `payloadTime` is the parsed
`delivered_at` field (none when absent or unparseable, in which case
`datetime.now()` — the `now` argument — is used); the status is forced to
delivered, the AWB set if absent, and the delivered timestamp written only
when not already present (first write wins); the event is appended to the
tracking log (this handler applies no cap) and the order persisted. -/
def handle_shipment_delivered (o : Order) (payloadTime : Option Nat) (now : Nat)
    (awb : Option String) : Order :=
  let eff := payloadTime.getD now
  let o1 := if o.shipping_status ≠ "delivered" then { o with shipping_status := "delivered" } else o
  let o2 := if truthyStr awb ∧ ¬ truthyStr o1.awb_number then { o1 with awb_number := awb } else o1
  let o3 := if o2.delivered_at = none then { o2 with delivered_at := some eff } else o2
  orderSave { o3 with tracking_log := o3.tracking_log ++ [("shipment_delivered", "delivered")] }

/-- A concrete checkout state for exercising `create_order`: one product
priced 2900 with stock available, an empty order book. -/
def dbCheckout : DB :=
  { orders := [], items := [], payments := [],
    products := [{ id := 1, name := "Perfume", price := 2900,
                   discounted_price := none, stock := 5 }],
    carts := [], enqueued := [], shiprocketConfigured := true }

/-- A paid order with its captured Payment row, as left behind by a
successful paid transition. -/
def oPaidC2 : Order :=
  { id := 1, userId := 7, razorpay_order_id := "rzp_paid", amount := 500,
    currency := "INR", status := .paid, subtotal := 430, shipment_charge := 70,
    total_amount := 500, free_shipping := false, shipping_status := "pending",
    awb_number := none, delivered_at := none, tracking_log := [],
    stock_debited := true }

/-- State containing the paid order `oPaidC2`. -/
def dbPaidC2 : DB :=
  { orders := [oPaidC2],
    items := [{ orderId := 1, productId := 1, quantity := 2, price := 215 }],
    payments := [{ orderId := 1, razorpay_payment_id := "pay_1",
                   razorpay_signature := "sig", status := .captured,
                   amount := 500, currency := "INR" }],
    products := [{ id := 1, name := "Perfume", price := 215,
                   discounted_price := none, stock := 3 }],
    carts := [], enqueued := [], shiprocketConfigured := true }

/-- Current stock of a product id, if the product exists. -/
def stockOf (db : DB) (pid : Nat) : Option Nat :=
  (findProduct db pid).map Product.stock

/-- Total quantity of an order's items referencing a given product. -/
def orderedQty (db : DB) (oid pid : Nat) : Nat :=
  (((itemsOf db oid).filter (fun it => it.productId = pid)).map OrderItem.quantity).sum

/-- A non-paid order whose stock was debited, for exercising cancellation. -/
def oC6 : Order :=
  { id := 1, userId := 7, razorpay_order_id := "rzp_c6", amount := 500,
    currency := "INR", status := .created, subtotal := 430, shipment_charge := 70,
    total_amount := 500, free_shipping := false, shipping_status := "pending",
    awb_number := none, delivered_at := none, tracking_log := [],
    stock_debited := true }

/-- State containing `oC6` with one item of quantity 2 on a product with
stock 3. -/
def dbC6 : DB :=
  { orders := [oC6],
    items := [{ orderId := 1, productId := 1, quantity := 2, price := 215 }],
    payments := [],
    products := [{ id := 1, name := "Perfume", price := 215,
                   discounted_price := none, stock := 3 }],
    carts := [7], enqueued := [], shiprocketConfigured := true }

/-- A created (non-paid) order whose single item demands more stock than is
available, so the stock debit of the paid transition must fail. -/
def oC8 : Order :=
  { id := 1, userId := 7, razorpay_order_id := "rzp_c8", amount := 500,
    currency := "INR", status := .created, subtotal := 430, shipment_charge := 70,
    total_amount := 500, free_shipping := false, shipping_status := "pending",
    awb_number := none, delivered_at := none, tracking_log := [],
    stock_debited := false }

/-- State containing `oC8`: item quantity 2, product stock 1, the user's
cart present, nothing enqueued. -/
def dbC8 : DB :=
  { orders := [oC8],
    items := [{ orderId := 1, productId := 1, quantity := 2, price := 215 }],
    payments := [],
    products := [{ id := 1, name := "Perfume", price := 215,
                   discounted_price := none, stock := 1 }],
    carts := [7], enqueued := [], shiprocketConfigured := true }

/-- The aggregator candidate the recommended id points at, carrying a
declared rate of zero and no freight fallback. -/
def cZeroRec : Courier :=
  { courier_company_id := some 1, rate := some 0, freight_charge := 0,
    other_charges := 0, name := "ZeroRate" }

/-- Candidate with declared rate 0 and no fallback charges. -/
def courierA : Courier :=
  { courier_company_id := none, rate := some 0, freight_charge := 0,
    other_charges := 0, name := "A" }

/-- Candidate with no declared rate, freight 40 and other charges 10. -/
def courierB : Courier :=
  { courier_company_id := none, rate := none, freight_charge := 40,
    other_charges := 10, name := "B" }

/-- An order already delivered (timestamp recorded at 100). -/
def oDelivered : Order :=
  { id := 1, userId := 7, razorpay_order_id := "rzp_c9", amount := 500,
    currency := "INR", status := .paid, subtotal := 430, shipment_charge := 70,
    total_amount := 500, free_shipping := false, shipping_status := "delivered",
    awb_number := none, delivered_at := some 100, tracking_log := [],
    stock_debited := true }

/-- A state with a cheap product, for exercising the minimum-amount gate. -/
def dbTiny : DB :=
  { orders := [], items := [], payments := [],
    products := [{ id := 1, name := "Sample", price := 2/5,
                   discounted_price := none, stock := 5 }],
    carts := [], enqueued := [], shiprocketConfigured := true }

/-- Evaluation principle for the paise conversion: the floor characterization
of `roundHalfUp` on a nonnegative total. -/
theorem amount_in_paise_eq (t : ℚ) (z : ℤ) (h0 : 0 ≤ t)
    (h1 : (z : ℚ) ≤ t * 100 + 1 / 2) (h2 : t * 100 + 1 / 2 < z + 1) :
    amount_in_paise t = z := by
  unfold amount_in_paise roundHalfUp
  rw [if_pos (by positivity)]
  exact Int.floor_eq_iff.mpr ⟨by exact_mod_cast h1, by exact_mod_cast h2⟩

/-- C3: after every persist of an Order, the stored `total_amount` equals the
stored `subtotal` plus the stored `shipment_charge`, and the value is
recomputed at save time — an arbitrary incoming `total_amount` is ignored by
the save. -/
theorem C3_total_recomputed_on_save (o : Order) (t : ℚ) :
    (orderSave o).total_amount = (orderSave o).subtotal + (orderSave o).shipment_charge
    ∧ orderSave { o with total_amount := t } = orderSave o := by
  unfold orderSave
  by_cases h : 3000 ≤ o.subtotal <;> simp [h]

/-- C4: every persist overwrites `shipment_charge` with the flat rule —
0 with `free_shipping` set when the subtotal reaches 3000, else a flat 70 —
independently of the carrier rate stored before the save; `total_amount` is
recomputed from that flat charge while `amount` is left untouched; and for
a concrete order (subtotal 2900, quoted carrier rate 50) the persisted
`total_amount` (2970) differs from the `amount` opened with the gateway
(2950, i.e. 295000 paise). -/
theorem C4_flat_shipping_overwrite (o : Order) (c : ℚ) :
    orderSave { o with shipment_charge := c } = orderSave o
    ∧ (orderSave o).shipment_charge = (if 3000 ≤ o.subtotal then 0 else 70)
    ∧ (orderSave o).free_shipping = decide (3000 ≤ o.subtotal)
    ∧ (orderSave o).amount = o.amount
    ∧ (create_order dbCheckout 7 none (some "110001") [(1, 1)]
         (some { rate := 50, courier := "DTDC" }) (some "rzp_c4")).2
        = CreateResp.created 295000
    ∧ ((findOrderByRid (create_order dbCheckout 7 none (some "110001") [(1, 1)]
          (some { rate := 50, courier := "DTDC" }) (some "rzp_c4")).1 "rzp_c4").map
        (fun x => (x.amount, x.total_amount, x.shipment_charge)))
        = some (2950, 2970, 70)
    ∧ (2950 : ℚ) ≠ 2970 := by
  have hA : amount_in_paise (2950 : ℚ) = 295000 :=
    amount_in_paise_eq 2950 295000 (by norm_num) (by norm_num) (by norm_num)
  refine ⟨?_, ?_, ?_, ?_, ?_, ?_, by norm_num⟩
  · unfold orderSave; by_cases h : 3000 ≤ o.subtotal <;> simp [h]
  · unfold orderSave; by_cases h : 3000 ≤ o.subtotal <;> simp [h]
  · unfold orderSave; by_cases h : 3000 ≤ o.subtotal <;> simp [h]
  · unfold orderSave; by_cases h : 3000 ≤ o.subtotal <;> simp [h]
  · norm_num [create_order, checkItems, dbCheckout, findProduct, effectivePrice,
      orderSave, hA]
  · norm_num [create_order, checkItems, dbCheckout, findProduct, effectivePrice,
      orderSave, findOrderByRid, hA]

/-- C2 (code bug): a `payment.failed` webhook for an order whose current
status is `paid` overwrites the status to `failed` and persists it (the
guard at views.py line 594 only excludes orders already in status failed),
contradicting the documented state machine (failed is reachable from
created/attempted only, paid is never overwritten); the subsequent
`Payment.objects.create` then hits the captured Payment row's OneToOne
unique constraint, so the webhook answers 400 with no new Payment row —
but the overwrite has already been committed. -/
theorem C2_failed_overwrites_paid :
    (webhook_failed dbPaidC2 "rzp_paid" "pay_2").2 = Resp.badRequest
    ∧ (findOrderByRid (webhook_failed dbPaidC2 "rzp_paid" "pay_2").1 "rzp_paid").map
        Order.status = some OrderStatus.failed
    ∧ (webhook_failed dbPaidC2 "rzp_paid" "pay_2").1.payments = dbPaidC2.payments
    ∧ oPaidC2.status = OrderStatus.paid := by
  refine ⟨?_, ?_, ?_, rfl⟩ <;>
    norm_num [webhook_failed, dbPaidC2, oPaidC2, findOrderByRid, findOrderById,
      findPaymentByOrder, updateOrder, orderSave, restore_order_stock,
      (by decide : OrderStatus.paid ≠ OrderStatus.failed),
      (by decide : OrderStatus.failed ≠ OrderStatus.created)]

/-- C5 (code bug): any `create_order` request carrying an idempotency key
reaches `Order.objects.filter(idempotency_key=...)` although the Order model
defines no `idempotency_key` field; the resulting `FieldError` escapes the
handler's try block as a 500 and no Order row is created — so no order is
ever tagged with a key and a retry can never be answered with 409. -/
theorem C5_idempotency_key_field_missing :
    create_order dbCheckout 7 (some "key-1") (some "110001") [(1, 1)]
        (some { rate := 50, courier := "DTDC" }) (some "rzp_c5")
      = (dbCheckout, CreateResp.fieldError) := by
  norm_num [create_order]

/-- C1: for an order already in status paid (with its Payment row present,
as the paid transition leaves it), each of the three capture entry points —
the `payment.captured` webhook, `verify-payment` (after a valid signature)
and `check-payment-status` — answers success and returns the state
unchanged: no second Payment row, no further stock debit, no further cart
clearing, no shipment enqueue. -/
theorem C1_paid_transition_idempotent (db : DB) (o : Order) (p : Payment)
    (rid pid pid2 sig : String) (uid : Nat) (g : Option String)
    (hfind : findOrderByRid db rid = some o)
    (hfindu : findOrderByRidUser db rid uid = some o)
    (hpaid : o.status = OrderStatus.paid)
    (hpay : findPaymentByOrder db o.id = some p) :
    webhook_captured db rid pid = (db, Resp.success)
    ∧ verify_payment db uid rid pid2 sig true = (db, Resp.success)
    ∧ check_payment_status db uid rid g = (db, Resp.success) := by
  unfold webhook_captured verify_payment check_payment_status
  simp [hfind, hfindu, hpaid, hpay]

/-- Concrete instantiation of the paid-order no-op law at `dbPaidC2`. -/
theorem C1_witness :
    webhook_captured dbPaidC2 "rzp_paid" "pay_9" = (dbPaidC2, Resp.success)
    ∧ verify_payment dbPaidC2 7 "rzp_paid" "pay_9" "s" true = (dbPaidC2, Resp.success)
    ∧ check_payment_status dbPaidC2 7 "rzp_paid" none = (dbPaidC2, Resp.success) :=
  C1_paid_transition_idempotent dbPaidC2 oPaidC2
    { orderId := 1, razorpay_payment_id := "pay_1", razorpay_signature := "sig",
      status := .captured, amount := 500, currency := "INR" }
    "rzp_paid" "pay_9" "pay_9" "s" 7 none rfl rfl rfl rfl

theorem find?_map_of_pred_inv {α : Type} (f : α → α) (q : α → Bool)
    (h : ∀ x, q (f x) = q x) (l : List α) :
    (l.map f).find? q = (l.find? q).map f := by
  induction l with
  | nil => rfl
  | cons a l ih =>
    cases hq : q a with
    | true =>
      rw [List.map_cons, List.find?_cons_of_pos _ (by rw [h a]; exact hq),
        List.find?_cons_of_pos _ hq]
      rfl
    | false =>
      rw [List.map_cons, List.find?_cons_of_neg _ (by simp [h a, hq]),
        List.find?_cons_of_neg _ (by simp [hq])]
      exact ih

theorem findProduct_updateProductStock (db : DB) (pid tgt : Nat) (f : Nat → Nat) :
    findProduct (updateProductStock db pid f) tgt
      = (findProduct db tgt).map
          (fun p => if p.id = pid then { p with stock := f p.stock } else p) := by
  unfold findProduct updateProductStock
  exact find?_map_of_pred_inv _ _
    (fun x => by by_cases hx : x.id = pid <;> simp [hx]) _

theorem stockOf_updateProductStock (db : DB) (pid tgt : Nat) (f : Nat → Nat) :
    stockOf (updateProductStock db pid f) tgt
      = (stockOf db tgt).map (fun s => if tgt = pid then f s else s) := by
  unfold stockOf
  rw [findProduct_updateProductStock]
  cases hf : findProduct db tgt with
  | none => rfl
  | some p =>
    unfold findProduct at hf
    have hp : p.id = tgt := by simpa using List.find?_some hf
    by_cases ht : tgt = pid <;> simp [hp, ht]

theorem stockOf_creditStockList (items : List OrderItem) (db : DB) (tgt : Nat) :
    stockOf (creditStockList items db) tgt
      = (stockOf db tgt).map (fun s =>
          s + ((items.filter (fun it => it.productId = tgt)).map OrderItem.quantity).sum) := by
  induction items generalizing db with
  | nil => cases h : stockOf db tgt <;> simp [creditStockList, h]
  | cons it rest ih =>
    have hstep : creditStockList (it :: rest) db
        = creditStockList rest (updateProductStock db it.productId (fun s => s + it.quantity)) := rfl
    rw [hstep, ih, stockOf_updateProductStock]
    by_cases h : tgt = it.productId
    · cases hs : stockOf db tgt <;>
        simp [List.filter_cons, h, hs, Nat.add_assoc]
    · have h2 : ¬ it.productId = tgt := fun hc => h hc.symm
      cases hs : stockOf db tgt <;> simp [List.filter_cons, h, h2, hs]

theorem creditStockList_fields (items : List OrderItem) (db : DB) :
    (creditStockList items db).orders = db.orders
    ∧ (creditStockList items db).items = db.items
    ∧ (creditStockList items db).payments = db.payments
    ∧ (creditStockList items db).carts = db.carts
    ∧ (creditStockList items db).enqueued = db.enqueued := by
  induction items generalizing db with
  | nil => exact ⟨rfl, rfl, rfl, rfl, rfl⟩
  | cons it rest ih =>
    exact ih (updateProductStock db it.productId (fun s => s + it.quantity))

theorem decreaseStockList_fields (items : List OrderItem) (db : DB) :
    (decreaseStockList items db).1.orders = db.orders
    ∧ (decreaseStockList items db).1.items = db.items
    ∧ (decreaseStockList items db).1.payments = db.payments
    ∧ (decreaseStockList items db).1.carts = db.carts
    ∧ (decreaseStockList items db).1.enqueued = db.enqueued := by
  induction items generalizing db with
  | nil => exact ⟨rfl, rfl, rfl, rfl, rfl⟩
  | cons it rest ih =>
    simp only [decreaseStockList]
    cases hf : findProduct db it.productId with
    | none => simp [hf]
    | some p =>
      simp only [hf]
      by_cases hs : p.stock < it.quantity
      · simp [hs]
      · simp only [hs, if_false]
        exact ih (updateProductStock db it.productId (fun s => s - it.quantity))

theorem upsertPayment_fields (db : DB) (o : Order) (pid sig : String) :
    (upsertPayment db o pid sig).orders = db.orders
    ∧ (upsertPayment db o pid sig).items = db.items
    ∧ (upsertPayment db o pid sig).products = db.products
    ∧ (upsertPayment db o pid sig).carts = db.carts
    ∧ (upsertPayment db o pid sig).enqueued = db.enqueued := by
  unfold upsertPayment
  cases findPaymentByOrder db o.id <;> exact ⟨rfl, rfl, rfl, rfl, rfl⟩

/-- Field projections preserved by `orderSave` (only the monetary derived
fields change). -/
theorem orderSave_fields (o : Order) :
    (orderSave o).id = o.id ∧ (orderSave o).userId = o.userId
    ∧ (orderSave o).razorpay_order_id = o.razorpay_order_id
    ∧ (orderSave o).status = o.status
    ∧ (orderSave o).stock_debited = o.stock_debited
    ∧ (orderSave o).amount = o.amount := by
  unfold orderSave
  split <;> exact ⟨rfl, rfl, rfl, rfl, rfl, rfl⟩

theorem find?_id_update (l : List Order) (o1 : Order) (oid : Nat)
    (hid : o1.id = oid) (hex : ∃ x ∈ l, x.id = oid) :
    (l.map (fun x => if x.id = o1.id then o1 else x)).find?
      (fun x => decide (x.id = oid)) = some o1 := by
  induction l with
  | nil => simp at hex
  | cons a l ih =>
    by_cases ha : a.id = oid
    · have hao : a.id = o1.id := by rw [ha, hid]
      rw [List.map_cons, if_pos hao, List.find?_cons_of_pos _ (by simp [hid])]
    · by_cases hb : a.id = o1.id
      · exact absurd (hb.trans hid) ha
      · rw [List.map_cons, if_neg hb, List.find?_cons_of_neg _ (by simp [ha])]
        apply ih
        rcases hex with ⟨w, hw, hwid⟩
        rcases List.mem_cons.mp hw with hwa | hwl
        · exact absurd (hwa ▸ hwid) ha
        · exact ⟨w, hwl, hwid⟩

theorem findOrderById_updateOrder (db : DB) (o1 : Order) (oid : Nat)
    (hid : o1.id = oid) (hex : ∃ x ∈ db.orders, x.id = oid) :
    findOrderById (updateOrder db o1) oid = some o1 := by
  unfold findOrderById updateOrder
  exact find?_id_update db.orders o1 oid hid hex

theorem find?_ridUser_update (l : List Order) (o o1 : Order) (rid : String) (uid : Nat)
    (h : l.find? (fun x => decide (x.razorpay_order_id = rid ∧ x.userId = uid)) = some o)
    (hid : o1.id = o.id) (hr : o1.razorpay_order_id = rid) (hu : o1.userId = uid) :
    (l.map (fun x => if x.id = o1.id then o1 else x)).find?
      (fun x => decide (x.razorpay_order_id = rid ∧ x.userId = uid)) = some o1 := by
  induction l with
  | nil => simp at h
  | cons a l ih =>
    by_cases hpa : a.razorpay_order_id = rid ∧ a.userId = uid
    · rw [List.find?_cons_of_pos _ (by simp [hpa])] at h
      have ha : a = o := by injection h
      rw [List.map_cons]
      by_cases hb : a.id = o1.id
      · rw [if_pos hb, List.find?_cons_of_pos _ (by simp [hr, hu])]
      · exact absurd (ha ▸ hid.symm) hb
    · rw [List.find?_cons_of_neg _ (by simp [hpa])] at h
      rw [List.map_cons]
      by_cases hb : a.id = o1.id
      · rw [if_pos hb, List.find?_cons_of_pos _ (by simp [hr, hu])]
      · rw [if_neg hb, List.find?_cons_of_neg _ (by simp [hpa])]
        exact ih h

theorem findOrderByRidUser_updateOrder (db : DB) (o o1 : Order) (rid : String) (uid : Nat)
    (h : findOrderByRidUser db rid uid = some o)
    (hid : o1.id = o.id) (hr : o1.razorpay_order_id = rid) (hu : o1.userId = uid) :
    findOrderByRidUser (updateOrder db o1) rid uid = some o1 := by
  unfold findOrderByRidUser updateOrder
  unfold findOrderByRidUser at h
  exact find?_ridUser_update db.orders o o1 rid uid h hid hr hu

/-- C6: cancelling a non-paid order answers success, marks the order
cancelled, and — per the spec-modelled `restore_order_stock` — credits back
exactly the quantities of the order's OrderItems when the order's stock had
been debited, while changing no product stock at all when stock was never
debited. -/
theorem C6_cancel_restores_stock (db : DB) (uid oid : Nat) (o : Order)
    (hfind : findOrderByIdUser db oid uid = some o)
    (hnp : o.status ≠ OrderStatus.paid) :
    (cancel_order db uid oid).2 = Resp.success
    ∧ (∃ o1, findOrderById (cancel_order db uid oid).1 oid = some o1
        ∧ o1.status = OrderStatus.cancelled)
    ∧ (o.stock_debited = true →
        ∀ pid, stockOf (cancel_order db uid oid).1 pid
          = (stockOf db pid).map (fun s => s + orderedQty db oid pid))
    ∧ (o.stock_debited = false → (cancel_order db uid oid).1.products = db.products) := by
  have hfind2 := hfind
  unfold findOrderByIdUser at hfind2
  have hq0 := List.find?_some hfind2
  simp only [decide_eq_true_eq] at hq0
  have hmem : o ∈ db.orders := List.mem_of_find?_eq_some hfind2
  have hc : cancel_order db uid oid
      = (restore_order_stock
          (updateOrder db (orderSave { o with status := OrderStatus.cancelled })) oid,
         Resp.success) := by
    unfold cancel_order
    simp only [hfind, if_neg hnp]
  obtain ⟨f1, f2, f3, f4, f5, f6⟩ := orderSave_fields { o with status := OrderStatus.cancelled }
  have hido1 : (orderSave { o with status := OrderStatus.cancelled }).id = oid := by
    rw [f1]; exact hq0.1
  have hfid : findOrderById
      (updateOrder db (orderSave { o with status := OrderStatus.cancelled })) oid
      = some (orderSave { o with status := OrderStatus.cancelled }) :=
    findOrderById_updateOrder db _ oid hido1 ⟨o, hmem, hq0.1⟩
  have hflag : (orderSave { o with status := OrderStatus.cancelled }).stock_debited
      = o.stock_debited := f5
  rw [hc]
  rcases Bool.eq_false_or_eq_true o.stock_debited with hdeb | hdeb
  case inl =>
    have hr : restore_order_stock
        (updateOrder db (orderSave { o with status := OrderStatus.cancelled })) oid
        = { creditStockList
              (itemsOf (updateOrder db (orderSave { o with status := OrderStatus.cancelled })) oid)
              (updateOrder db (orderSave { o with status := OrderStatus.cancelled })) with
            orders := (creditStockList
              (itemsOf (updateOrder db (orderSave { o with status := OrderStatus.cancelled })) oid)
              (updateOrder db (orderSave { o with status := OrderStatus.cancelled }))).orders.map
              (fun x => if x.id = oid then { x with stock_debited := false } else x) } := by
      unfold restore_order_stock
      rw [hfid]
      exact if_pos (hflag.trans hdeb)
    refine ⟨rfl, ?_, ?_, ?_⟩
    · -- the cancelled status survives the credit pass and the flag clear
      rw [hr]
      refine ⟨{ orderSave { o with status := OrderStatus.cancelled } with
                stock_debited := false }, ?_, ?_⟩
      · unfold findOrderById
        have horders : (creditStockList
            (itemsOf (updateOrder db (orderSave { o with status := OrderStatus.cancelled })) oid)
            (updateOrder db (orderSave { o with status := OrderStatus.cancelled }))).orders
            = (updateOrder db (orderSave { o with status := OrderStatus.cancelled })).orders :=
          (creditStockList_fields _ _).1
        have hmap := find?_map_of_pred_inv
          (fun x => if x.id = oid then { x with stock_debited := false } else x)
          (fun x => decide (x.id = oid))
          (fun x => by by_cases hx : x.id = oid <;> simp [hx])
          (creditStockList
            (itemsOf (updateOrder db (orderSave { o with status := OrderStatus.cancelled })) oid)
            (updateOrder db (orderSave { o with status := OrderStatus.cancelled }))).orders
        rw [hmap, horders]
        unfold findOrderById at hfid
        rw [hfid]
        simp [hido1]
      · simp [f4]
    · -- stock credited by exactly the ordered quantities
      intro _ pid
      rw [hr]
      have hstock : stockOf
          { creditStockList
              (itemsOf (updateOrder db (orderSave { o with status := OrderStatus.cancelled })) oid)
              (updateOrder db (orderSave { o with status := OrderStatus.cancelled })) with
            orders := (creditStockList
              (itemsOf (updateOrder db (orderSave { o with status := OrderStatus.cancelled })) oid)
              (updateOrder db (orderSave { o with status := OrderStatus.cancelled }))).orders.map
              (fun x => if x.id = oid then { x with stock_debited := false } else x) } pid
          = stockOf (creditStockList
              (itemsOf (updateOrder db (orderSave { o with status := OrderStatus.cancelled })) oid)
              (updateOrder db (orderSave { o with status := OrderStatus.cancelled }))) pid := rfl
      rw [hstock, stockOf_creditStockList]
      rfl
    · intro hcon
      rw [hdeb] at hcon
      exact absurd hcon (by simp)
  case inr =>
    have hr : restore_order_stock
        (updateOrder db (orderSave { o with status := OrderStatus.cancelled })) oid
        = updateOrder db (orderSave { o with status := OrderStatus.cancelled }) := by
      unfold restore_order_stock
      rw [hfid]
      exact if_neg (by rw [hflag, hdeb]; simp)
    refine ⟨rfl, ?_, ?_, ?_⟩
    · rw [hr]
      exact ⟨orderSave { o with status := OrderStatus.cancelled }, hfid, f4⟩
    · intro hcon
      rw [hdeb] at hcon
      exact absurd hcon (by simp)
    · intro _
      rw [hr]
      rfl

theorem upsertPayment_finds (db : DB) (o : Order) (pid sig : String) :
    ∃ p, findPaymentByOrder (upsertPayment db o pid sig) o.id = some p
      ∧ p.status = PaymentStatus.captured := by
  unfold upsertPayment
  cases hf : findPaymentByOrder db o.id with
  | none =>
    refine ⟨{ orderId := o.id, razorpay_payment_id := pid, razorpay_signature := sig,
              status := .captured, amount := o.amount, currency := o.currency }, ?_, rfl⟩
    unfold findPaymentByOrder at hf ⊢
    rw [List.find?_append]
    simp [hf]
  | some p0 =>
    have hp0 : p0.orderId = o.id := by
      have h2 := List.find?_some (by simpa [findPaymentByOrder] using hf)
      simpa using h2
    refine ⟨{ p0 with razorpay_payment_id := pid, razorpay_signature := sig, status := .captured }, ?_, rfl⟩
    unfold findPaymentByOrder at hf ⊢
    have hmap := find?_map_of_pred_inv
      (fun p => if p.orderId = o.id then
        { p with razorpay_payment_id := pid, razorpay_signature := sig,
                 status := PaymentStatus.captured } else p)
      (fun p => decide (p.orderId = o.id))
      (fun x => by by_cases hx : x.orderId = o.id <;> simp [hx])
      db.payments
    rw [hmap, hf]
    simp [hp0]

/-- C8 (amended): when debiting stock fails during the paid transition, the
order keeps its freshly written paid marking and its captured Payment row
(no rollback), but the exception propagates: the cart is not cleared,
shipment creation is not enqueued, and `verify-payment` reports a 500 error
instead of success. -/
theorem C8_stock_failure_aborts_rest (db : DB) (o : Order) (rid pid sig : String) (uid : Nat)
    (hfind : findOrderByRidUser db rid uid = some o)
    (hnp : ¬ o.status = OrderStatus.paid)
    (hfail : (decrease_order_stock
        (upsertPayment (updateOrder db (orderSave { o with status := OrderStatus.paid }))
          (orderSave { o with status := OrderStatus.paid }) pid sig) o.id).2 = false) :
    (verify_payment db uid rid pid sig true).2 = Resp.serverError
    ∧ (verify_payment db uid rid pid sig true).1.carts = db.carts
    ∧ (verify_payment db uid rid pid sig true).1.enqueued = db.enqueued
    ∧ (findOrderByRidUser (verify_payment db uid rid pid sig true).1 rid uid).map Order.status
        = some OrderStatus.paid
    ∧ (∃ p, findPaymentByOrder (verify_payment db uid rid pid sig true).1 o.id = some p
        ∧ p.status = PaymentStatus.captured) := by
  have hfind2 := hfind
  unfold findOrderByRidUser at hfind2
  have hfu := List.find?_some hfind2
  simp only [decide_eq_true_eq] at hfu
  obtain ⟨f1, f2, f3, f4, f5, f6⟩ := orderSave_fields { o with status := OrderStatus.paid }
  rcases hd : decrease_order_stock
      (upsertPayment (updateOrder db (orderSave { o with status := OrderStatus.paid }))
        (orderSave { o with status := OrderStatus.paid }) pid sig) o.id with ⟨db3, b⟩
  rw [hd] at hfail
  simp only at hfail
  subst hfail
  have hv : verify_payment db uid rid pid sig true = (db3, Resp.serverError) := by
    unfold verify_payment handle_successful_payment
    simp only [hfind, if_neg hnp, if_true, hd]
  have hfields := decreaseStockList_fields
    (itemsOf (upsertPayment (updateOrder db (orderSave { o with status := OrderStatus.paid }))
      (orderSave { o with status := OrderStatus.paid }) pid sig) o.id)
    (upsertPayment (updateOrder db (orderSave { o with status := OrderStatus.paid }))
      (orderSave { o with status := OrderStatus.paid }) pid sig)
  have hdb3 : db3 = (decrease_order_stock
      (upsertPayment (updateOrder db (orderSave { o with status := OrderStatus.paid }))
        (orderSave { o with status := OrderStatus.paid }) pid sig) o.id).1 := by rw [hd]
  have hup := upsertPayment_fields
    (updateOrder db (orderSave { o with status := OrderStatus.paid }))
    (orderSave { o with status := OrderStatus.paid }) pid sig
  refine ⟨by rw [hv], ?_, ?_, ?_, ?_⟩
  · rw [hv]
    show db3.carts = db.carts
    rw [hdb3]
    exact (hfields.2.2.2.1).trans (hup.2.2.2.1)
  · rw [hv]
    show db3.enqueued = db.enqueued
    rw [hdb3]
    exact (hfields.2.2.2.2).trans (hup.2.2.2.2)
  · rw [hv]
    show (findOrderByRidUser db3 rid uid).map Order.status = some OrderStatus.paid
    have horders : db3.orders
        = (updateOrder db (orderSave { o with status := OrderStatus.paid })).orders := by
      rw [hdb3]
      exact (hfields.1).trans (hup.1)
    have hfo : findOrderByRidUser db3 rid uid
        = some (orderSave { o with status := OrderStatus.paid }) := by
      unfold findOrderByRidUser
      rw [horders]
      have := findOrderByRidUser_updateOrder db o
        (orderSave { o with status := OrderStatus.paid }) rid uid hfind f1
        (by rw [f3]; exact hfu.1) (by rw [f2]; exact hfu.2)
      unfold findOrderByRidUser updateOrder at this
      exact this
    rw [hfo]
    simp [f4]
  · rw [hv]
    have hpays : db3.payments
        = (upsertPayment (updateOrder db (orderSave { o with status := OrderStatus.paid }))
            (orderSave { o with status := OrderStatus.paid }) pid sig).payments := by
      rw [hdb3]
      exact hfields.2.2.1
    obtain ⟨p, hp1, hp2⟩ := upsertPayment_finds
      (updateOrder db (orderSave { o with status := OrderStatus.paid }))
      (orderSave { o with status := OrderStatus.paid }) pid sig
    refine ⟨p, ?_, hp2⟩
    unfold findPaymentByOrder at hp1 ⊢
    rw [hpays]
    rw [f1] at hp1
    exact hp1

/-- Concrete instantiation of the cancellation law at `dbC6`. -/
theorem C6_witness :
    (cancel_order dbC6 7 1).2 = Resp.success
    ∧ (∃ o1, findOrderById (cancel_order dbC6 7 1).1 1 = some o1
        ∧ o1.status = OrderStatus.cancelled)
    ∧ (oC6.stock_debited = true →
        ∀ pid, stockOf (cancel_order dbC6 7 1).1 pid
          = (stockOf dbC6 pid).map (fun s => s + orderedQty dbC6 1 pid))
    ∧ (oC6.stock_debited = false → (cancel_order dbC6 7 1).1.products = dbC6.products) :=
  C6_cancel_restores_stock dbC6 7 1 oC6 rfl (by decide)

/-- C8 (counterexample): at `dbC8` the stock debit fails during
`verify-payment`; the entry point answers 500 (not success), the cart is not
cleared and no shipment is enqueued — refuting the claim that remaining side
effects still occur and that success is still reported — while the order is
left marked paid. -/
theorem C8_counterexample :
    (verify_payment dbC8 7 "rzp_c8" "pay_1" "s" true).2 = Resp.serverError
    ∧ (verify_payment dbC8 7 "rzp_c8" "pay_1" "s" true).1.carts = [7]
    ∧ (verify_payment dbC8 7 "rzp_c8" "pay_1" "s" true).1.enqueued = []
    ∧ stockOf (verify_payment dbC8 7 "rzp_c8" "pay_1" "s" true).1 1 = some 1
    ∧ (findOrderByRidUser (verify_payment dbC8 7 "rzp_c8" "pay_1" "s" true).1 "rzp_c8" 7).map
        Order.status = some OrderStatus.paid := by
  refine ⟨?_, ?_, ?_, ?_, ?_⟩ <;> decide

/-- Concrete instantiation of the amended stock-failure law at `dbC8`. -/
theorem C8_witness :
    (verify_payment dbC8 7 "rzp_c8" "pay_1" "s" true).2 = Resp.serverError
    ∧ (verify_payment dbC8 7 "rzp_c8" "pay_1" "s" true).1.carts = dbC8.carts
    ∧ (verify_payment dbC8 7 "rzp_c8" "pay_1" "s" true).1.enqueued = dbC8.enqueued
    ∧ (findOrderByRidUser (verify_payment dbC8 7 "rzp_c8" "pay_1" "s" true).1 "rzp_c8" 7).map
        Order.status = some OrderStatus.paid
    ∧ (∃ p, findPaymentByOrder (verify_payment dbC8 7 "rzp_c8" "pay_1" "s" true).1 oC8.id = some p
        ∧ p.status = PaymentStatus.captured) :=
  C8_stock_failure_aborts_rest dbC8 oC8 "rzp_c8" "pay_1" "s" 7 rfl (by decide) (by decide)

theorem pyminBy_mem (xs : List Courier) : ∀ x : Courier,
    pyminBy x xs = x ∨ pyminBy x xs ∈ xs := by
  induction xs with
  | nil => intro x; exact Or.inl rfl
  | cons c rest ih =>
    intro x
    have hstep : pyminBy x (c :: rest)
        = pyminBy (if compute_rate c < compute_rate x then c else x) rest := rfl
    rw [hstep]
    rcases ih (if compute_rate c < compute_rate x then c else x) with h | h
    · rw [h]
      by_cases hc : compute_rate c < compute_rate x
      · rw [if_pos hc]; exact Or.inr (List.mem_cons_self c rest)
      · rw [if_neg hc]; exact Or.inl rfl
    · exact Or.inr (List.mem_cons_of_mem c h)

theorem pyminBy_le (xs : List Courier) : ∀ x : Courier,
    compute_rate (pyminBy x xs) ≤ compute_rate x
    ∧ ∀ c ∈ xs, compute_rate (pyminBy x xs) ≤ compute_rate c := by
  induction xs with
  | nil => intro x; exact ⟨le_refl _, by simp⟩
  | cons c rest ih =>
    intro x
    have hstep : pyminBy x (c :: rest)
        = pyminBy (if compute_rate c < compute_rate x then c else x) rest := rfl
    obtain ⟨ih1, ih2⟩ := ih (if compute_rate c < compute_rate x then c else x)
    by_cases hc : compute_rate c < compute_rate x
    · rw [if_pos hc] at ih1 ih2
      constructor
      · rw [hstep, if_pos hc]
        exact le_trans ih1 (le_of_lt hc)
      · intro d hd
        rw [hstep, if_pos hc]
        rcases List.mem_cons.mp hd with hdc | hdr
        · rw [hdc]; exact ih1
        · exact ih2 d hdr
    · rw [if_neg hc] at ih1 ih2
      constructor
      · rw [hstep, if_neg hc]; exact ih1
      · intro d hd
        rw [hstep, if_neg hc]
        rcases List.mem_cons.mp hd with hdc | hdr
        · rw [hdc]; exact le_trans ih1 (le_of_not_lt hc)
        · exact ih2 d hdr

/-- C7 (counterexample): with a single candidate whose computed rate is 0
and whose id is the recommended id, selection succeeds with charge 0 — the
recommended carrier is taken without any rate>0 validity check, and no
`NoCarrierAvailable` failure occurs although no candidate has a positive
computable rate. -/
theorem C7_counterexample :
    calculate_shipping_charges [cZeroRec] (some 1) none
      = Except.ok ((0 : ℚ), cZeroRec)
    ∧ compute_rate cZeroRec = 0 := by
  constructor
  · norm_num [calculate_shipping_charges, find_recommended, final_recommended_id,
      truthyId, compute_rate, cZeroRec]
  · norm_num [compute_rate, cZeroRec]

/-- C7 (amended): the recommended carrier is selected whenever its id
matches a candidate, with no check on its rate; only otherwise is the
cheapest candidate by computed rate (declared rate if positive, else
freight+other) chosen among candidates with positive computed rate, the
hard `NoCarrierAvailable`-style failures occurring only for an empty
candidate list or when the fallback finds no positive computed rate; the
spec scenario [rate 0; freight 40 + other 10] with no recommended id
selects charge 50. -/
theorem C7_carrier_selection :
    (∀ couriers sr rc c, couriers.isEmpty = false →
       find_recommended couriers (final_recommended_id sr rc) = some c →
       calculate_shipping_charges couriers sr rc = .ok (compute_rate c, c))
    ∧ calculate_shipping_charges [courierA, courierB] none none
        = .ok ((50 : ℚ), courierB)
    ∧ (∀ couriers sr rc, couriers.isEmpty = false →
       find_recommended couriers (final_recommended_id sr rc) = none →
       couriers.filter (fun c => decide (0 < compute_rate c)) = [] →
       calculate_shipping_charges couriers sr rc = .error .noValidRates)
    ∧ (∀ sr rc, calculate_shipping_charges [] sr rc = .error .noCouriers)
    ∧ (∀ couriers sr rc v vs, couriers.isEmpty = false →
       find_recommended couriers (final_recommended_id sr rc) = none →
       couriers.filter (fun c => decide (0 < compute_rate c)) = v :: vs →
       ∃ best, calculate_shipping_charges couriers sr rc = .ok (compute_rate best, best)
         ∧ best ∈ v :: vs
         ∧ ∀ c ∈ v :: vs, compute_rate best ≤ compute_rate c)
    ∧ (∀ c : Courier, (c.rate = none ∨ ∃ r, c.rate = some r ∧ r ≤ 0) →
       compute_rate c = c.freight_charge + c.other_charges)
    ∧ (∀ (c : Courier) (r : ℚ), c.rate = some r → r ≤ 0 →
       0 ≤ c.freight_charge + c.other_charges →
       compute_rate c = max r (c.freight_charge + c.other_charges)) := by
  refine ⟨?_, ?_, ?_, ?_, ?_, ?_, ?_⟩
  · intro couriers sr rc c h1 h2
    unfold calculate_shipping_charges
    simp [h1, h2]
  · norm_num [calculate_shipping_charges, find_recommended, final_recommended_id,
      truthyId, compute_rate, courierA, courierB, pyminBy]
  · intro couriers sr rc h1 h2 h3
    unfold calculate_shipping_charges
    simp [h1, h2, h3]
  · intro sr rc
    rfl
  · intro couriers sr rc v vs h1 h2 h3
    refine ⟨pyminBy v vs, ?_, ?_, ?_⟩
    · unfold calculate_shipping_charges
      simp [h1, h2, h3]
    · rcases pyminBy_mem vs v with h | h
      · rw [h]; exact List.mem_cons_self v vs
      · exact List.mem_cons_of_mem v h
    · intro c hc
      obtain ⟨hle1, hle2⟩ := pyminBy_le vs v
      rcases List.mem_cons.mp hc with hcv | hcr
      · rw [hcv]; exact hle1
      · exact hle2 c hcr
  · intro c h
    rcases h with h | ⟨r, hr, hrle⟩
    · unfold compute_rate; rw [h]
    · unfold compute_rate
      rw [hr]
      simp [not_lt.mpr hrle]
  · intro c r hr hrle hpos
    unfold compute_rate
    rw [hr]
    simp [not_lt.mpr hrle, max_eq_right (le_trans hrle hpos)]

/-- Concrete instantiations of the amended carrier-selection law: the
recommended-id override at `cZeroRec` and the hard failure on an empty
candidate list. -/
theorem C7_witness :
    calculate_shipping_charges [cZeroRec] (some 1) none
      = .ok (compute_rate cZeroRec, cZeroRec)
    ∧ calculate_shipping_charges [] (some 1) none = .error .noCouriers :=
  ⟨C7_carrier_selection.1 [cZeroRec] (some 1) none cZeroRec rfl rfl,
   C7_carrier_selection.2.2.2.1 (some 1) none⟩

theorem statusMapLookup_unknown (s : String) (h : ¬ s ∈ knownStatuses) :
    statusMapLookup s = s := by
  simp only [knownStatuses, List.mem_cons, List.mem_singleton, not_or] at h
  obtain ⟨h1, h2, h3, h4, h5, h6, h7, h8⟩ := h
  unfold statusMapLookup
  rw [if_neg h1, if_neg h2, if_neg h3, if_neg h4, if_neg h5, if_neg h6, if_neg h7,
    if_neg (by simpa using h8)]

/-- Shipping-related field projections preserved by `orderSave`. -/
theorem orderSave_ship_fields (o : Order) :
    (orderSave o).shipping_status = o.shipping_status
    ∧ (orderSave o).delivered_at = o.delivered_at
    ∧ (orderSave o).awb_number = o.awb_number := by
  unfold orderSave
  split <;> exact ⟨rfl, rfl, rfl⟩

/-- C9 (amended): a status event carrying a non-empty status string outside
the known mapping is stored **verbatim** (no lower-casing) as the order's
shipping status, without raising and without touching the delivered
timestamp; and the delivered handler writes the delivered timestamp only
once (first write wins) while forcing the status to delivered. -/
theorem C9_shipment_status_handling :
    (∀ (o : Order) (s : String) (awb : Option String),
       ¬ s ∈ knownStatuses → s ≠ "" →
       (handle_shipment_status o s awb).shipping_status = s
       ∧ (handle_shipment_status o s awb).delivered_at = o.delivered_at)
    ∧ (∀ (o : Order) (pt : Option Nat) (now : Nat) (awb : Option String) (t : Nat),
       o.delivered_at = some t →
       (handle_shipment_delivered o pt now awb).delivered_at = some t
       ∧ (handle_shipment_delivered o pt now awb).shipping_status = "delivered") := by
  constructor
  · intro o s awb hk he
    have hmap := statusMapLookup_unknown s hk
    unfold handle_shipment_status
    rw [hmap]
    unfold orderSave
    split_ifs <;> refine ⟨?_, ?_⟩ <;>
      first
        | rfl
        | simp_all [apply_ite Order.shipping_status, apply_ite Order.delivered_at]
  · intro o pt now awb t ht
    unfold handle_shipment_delivered
    unfold orderSave
    split_ifs <;> refine ⟨?_, ?_⟩ <;>
      first
        | rfl
        | simp_all [apply_ite Order.shipping_status, apply_ite Order.delivered_at]

/-- C9 (counterexample): a status event "LOST" on a delivered order is
stored verbatim — upper-case "LOST", not the lower-cased form "lost" the
claim prescribes — and regresses the shipping status away from delivered (only
the delivered timestamp survives). -/
theorem C9_counterexample :
    (handle_shipment_status oDelivered "LOST" none).shipping_status = "LOST"
    ∧ ("LOST" : String) ≠ "lost"
    ∧ (handle_shipment_status oDelivered "LOST" none).shipping_status ≠ "lost"
    ∧ oDelivered.shipping_status = "delivered"
    ∧ (handle_shipment_status oDelivered "LOST" none).shipping_status ≠ "delivered"
    ∧ (handle_shipment_status oDelivered "LOST" none).delivered_at = some 100 := by
  refine ⟨?_, ?_, ?_, ?_, ?_, ?_⟩ <;> decide

/-- Concrete instantiation of the amended shipment-webhook law at
`oDelivered`. -/
theorem C9_witness :
    ((handle_shipment_status oDelivered "LOST" none).shipping_status = "LOST"
      ∧ (handle_shipment_status oDelivered "LOST" none).delivered_at
          = oDelivered.delivered_at)
    ∧ ((handle_shipment_delivered oDelivered none 55 none).delivered_at = some 100
      ∧ (handle_shipment_delivered oDelivered none 55 none).shipping_status
          = "delivered") :=
  ⟨C9_shipment_status_handling.1 oDelivered "LOST" none (by decide) (by decide),
   C9_shipment_status_handling.2 oDelivered none 55 none 100 rfl⟩

/-- C10: the paise amount handed to the gateway is the total rounded
half-up, never truncated: it differs from the exact value total*100 by at
most 1/2, and an exact half fraction always rounds **up**; the spec
scenario subtotal 2900 + shipping 50 yields exactly 295000 paise; and
`create_order` rejects (400, no side effects) any request whose rounded
paise amount is below the gateway minimum of 100. -/
theorem C10_paise_round_half_up :
    (∀ x : ℚ, 0 ≤ x → |(amount_in_paise x : ℚ) - x * 100| ≤ 1 / 2)
    ∧ (∀ x : ℚ, 0 ≤ x → Int.fract (x * 100) = 1 / 2 →
        amount_in_paise x = ⌊x * 100⌋ + 1)
    ∧ amount_in_paise (2900 + 50) = 295000
    ∧ (∀ (db : DB) (uid : Nat) (pc : String) (reqItems : List (Nat × Nat))
         (priced : List (Nat × Nat × ℚ)) (subtotal : ℚ) (q : Quote) (gw : Option String),
       checkItems db reqItems = some (priced, subtotal, false) →
       amount_in_paise (subtotal + q.rate) < 100 →
       create_order db uid none (some pc) reqItems (some q) gw
         = (db, CreateResp.badRequest)) := by
  refine ⟨?_, ?_, ?_, ?_⟩
  · intro x hx
    unfold amount_in_paise roundHalfUp
    rw [if_pos (by positivity)]
    have h1 := Int.floor_le (x * 100 + 1 / 2)
    have h2 := Int.lt_floor_add_one (x * 100 + 1 / 2)
    rw [abs_le]
    constructor <;> linarith
  · intro x hx hf
    unfold amount_in_paise roundHalfUp
    rw [if_pos (by positivity)]
    rw [Int.fract] at hf
    rw [show x * 100 + 1 / 2 = ((⌊x * 100⌋ + 1 : ℤ) : ℚ) by push_cast; linarith]
    exact Int.floor_intCast _
  · exact amount_in_paise_eq (2900 + 50) 295000 (by norm_num) (by norm_num) (by norm_num)
  · intro db uid pc reqItems priced subtotal q gw h1 h2
    unfold create_order
    simp only [Option.isSome_none, Bool.false_eq_true, if_false, h1, if_pos h2]

/-- Concrete instantiations of the rounding law: exactness at 2950 rupees,
the round-up at an exact half paise, and the sub-minimum rejection at
`dbTiny`. -/
theorem C10_witness :
    |(amount_in_paise 2950 : ℚ) - 2950 * 100| ≤ 1 / 2
    ∧ amount_in_paise (1 / 200) = ⌊(1 / 200 : ℚ) * 100⌋ + 1
    ∧ create_order dbTiny 7 none (some "110001") [(1, 1)]
        (some { rate := 0, courier := "X" }) none = (dbTiny, CreateResp.badRequest) := by
  refine ⟨C10_paise_round_half_up.1 2950 (by norm_num), ?_, ?_⟩
  · refine C10_paise_round_half_up.2.1 (1 / 200) (by norm_num) ?_
    rw [show (1 / 200 : ℚ) * 100 = 1 / 2 by norm_num, Int.fract]
    rw [show ⌊(1 / 2 : ℚ)⌋ = 0 from Int.floor_eq_iff.mpr (by norm_num)]
    norm_num
  · refine C10_paise_round_half_up.2.2.2 dbTiny 7 "110001" [(1, 1)]
      [(1, 1, 2/5)] (0 + 2/5 * 1) { rate := 0, courier := "X" } none rfl ?_
    have h := amount_in_paise_eq (0 + 2/5 * 1 + 0) 40 (by norm_num) (by norm_num) (by norm_num)
    rw [h]
    norm_num

end Suspense
